import Mathlib

/-!
Verification of the publishing pipeline and metadata-driven predictor of the
cs-epm-project repository (the three publishing scripts
`cspredmaintproj/model_building/data_prep.py`,
`cspredmaintproj/model_building/model_register.py`, `deploy_to_hf.py`, and the
serving application `deployment/app.py`).

The scripts are embedded as pure functions from an environment (token,
filesystem probe results, remote-store behaviour) to an outcome together with
the ordered trace of remote-store calls (probe / create / upload / download)
the script performs.  The predictor's request handling is embedded as pure
functions over association lists.
-/

namespace CsEpm

/-- Result of the operating system's `stat` on a path: the path exists, does
not exist, or probing it fails with an access error (permission denied, I/O
error). -/
inductive FsStat
  | found
  | missing
  | accessError
  deriving DecidableEq, Repr

/-- Semantics of Python's `os.path.exists` / `pathlib.Path.exists`, used by all
three scripts: they return `True` only when `stat` succeeds; on `OSError`
(permission denied, I/O error) they return `False`, exactly as for a missing
path. -/
def pathExists : FsStat → Bool
  | .found => true
  | .missing => false
  | .accessError => false

/-- Semantics of `if not HF_TOKEN:` in the three scripts: the guard fires when
the environment variable is unset (`os.getenv` returns `None`) or empty. -/
def hasToken : Option String → Bool
  | none => false
  | some s => !(s == "")

/-- Outcome of `api.repo_info` (the existence probe): repository present,
probe raised `RepositoryNotFoundError`, or probe raised any other error
(auth, network, quota). -/
inductive ProbeResult
  | present
  | notFound
  | remoteError
  deriving DecidableEq, Repr

/-- A remote-store call made by a script, in the order the script makes them.
`upload` carries the local folder, repo id, repo type and `path_in_repo`;
`download` carries the token value actually passed to `hf_hub_download`. -/
inductive Event
  | probe (repoId : String) (repoType : String)
  | create (repoId : String) (repoType : String)
  | upload (folder : String) (repoId : String) (repoType : String)
      (pathInRepo : Option String)
  | download (repoId : String) (filename : String) (token : Option String)
  deriving DecidableEq, Repr

def Event.isProbe : Event → Bool
  | .probe _ _ => true
  | _ => false

def Event.isCreate : Event → Bool
  | .create _ _ => true
  | _ => false

def Event.isUpload : Event → Bool
  | .upload _ _ _ _ => true
  | _ => false

/-- How a script run ends: `sys.exit(code)`, an uncaught exception from a
remote call, or normal completion printing a final report (the list of file
names the script claims were uploaded). -/
inductive Outcome
  | exited (code : Nat)
  | raised
  | completed (report : List String)
  deriving DecidableEq, Repr

/-- The environment a script run observes: the `HF_TOKEN` variable, the
filesystem (answering `stat` per path string), the outcome of the one
existence probe, and whether each remote mutation succeeds or raises. -/
structure Env where
  token : Option String
  fs : String → FsStat
  probe : ProbeResult
  createOk : Bool
  uploadOk : Bool
  uploadOk2 : Bool

/-- The `missing_files` comprehension common to the three scripts:
`[f for f in required_files if not exists(root/f)]`.  Keeps `required_files`
order and accumulates every miss instead of stopping at the first. -/
def missingFiles (fileFound : String → Bool) (required : List String) :
    List String :=
  required.filter (fun f => !fileFound f)

/-- The Completeness Validator distilled from the scripts' shared fragment
`missing_files = [...]; if missing_files: sys.exit(1)`: succeed exactly when
no required file is missing, otherwise report the whole missing list. -/
def validate (fileFound : String → Bool) (required : List String) :
    Except (List String) Unit :=
  let missing := missingFiles fileFound required
  if missing.isEmpty then .ok () else .error missing

/-- `required_files` of `model_register.py`. -/
def requiredModelFiles : List String := ["best_model.joblib", "model_metadata.json"]

/-- Default `repo_id` of `model_register.py` (the `HF_MODEL_REPO_ID` override
keeps the same control flow, so the constant stands for whichever id is in
effect). -/
def modelRepoId : String := "spac1ngcat/cs-pred-maintain-model"

/-- Embedding of `model_register.py`: token check, models-folder check,
completeness check, then `try: api.repo_info ... except RepositoryNotFoundError:
create_repo ...` and `api.upload_folder`; any other exception from the probe,
the creation or the upload propagates (`Outcome.raised`). -/
def modelRegister (env : Env) : Outcome × List Event :=
  if !hasToken env.token then (.exited 1, [])
  else if !pathExists (env.fs "models") then (.exited 1, [])
  else
    let missing := missingFiles (fun f => pathExists (env.fs ("models/" ++ f)))
      requiredModelFiles
    if !missing.isEmpty then (.exited 1, [])
    else
      let pe := Event.probe modelRepoId "model"
      let ce := Event.create modelRepoId "model"
      let ue := Event.upload "models" modelRepoId "model" none
      match env.probe with
      | .present =>
          if env.uploadOk then (.completed requiredModelFiles, [pe, ue])
          else (.raised, [pe, ue])
      | .notFound =>
          if env.createOk then
            if env.uploadOk then (.completed requiredModelFiles, [pe, ce, ue])
            else (.raised, [pe, ce, ue])
          else (.raised, [pe, ce])
      | .remoteError => (.raised, [pe])

/-- `required_files` of `data_prep.py`. -/
def requiredDataFiles : List String :=
  ["X_train.csv", "y_train.csv", "X_test.csv", "y_test.csv"]

def dataRepoId : String := "spac1ngcat/cs-pred-maintain-ds"

/-- The final "Files uploaded" report of `data_prep.py`: the four processed
files followed unconditionally by the three artifacts files. -/
def dataPrepReport : List String :=
  requiredDataFiles.map (fun f => "processed/" ++ f) ++
    ["artifacts/column_schema.json", "artifacts/outlier_metadata.json",
     "artifacts/split_metadata.json"]

/-- Embedding of `data_prep.py`: token check, processed-folder check,
completeness check, upload of the processed folder, then — only when the
artifacts folder exists — upload of the artifacts folder; the final report is
printed unconditionally on completion.  There is no repository probe or
creation anywhere in this script. -/
def dataPrep (env : Env) : Outcome × List Event :=
  if !hasToken env.token then (.exited 1, [])
  else if !pathExists (env.fs "data/processed") then (.exited 1, [])
  else
    let missing :=
      missingFiles (fun f => pathExists (env.fs ("data/processed/" ++ f)))
        requiredDataFiles
    if !missing.isEmpty then (.exited 1, [])
    else
      let e1 := Event.upload "data/processed" dataRepoId "dataset" (some "processed")
      if !env.uploadOk then (.raised, [e1])
      else if pathExists (env.fs "data/artifacts") then
        let e2 := Event.upload "data/artifacts" dataRepoId "dataset" (some "artifacts")
        if !env.uploadOk2 then (.raised, [e1, e2])
        else (.completed dataPrepReport, [e1, e2])
      else (.completed dataPrepReport, [e1])

/-- `required_files` of `deploy_to_hf.py`. -/
def requiredDeployFiles : List String := ["Dockerfile", "app.py", "requirements.txt"]

def spaceId : String := "spac1ngcat/cs-pred-maintain-app"

/-- Embedding of `deploy_to_hf.py`: token check, deployment-folder check,
completeness check, then `api.upload_folder` straight away.  There is no
repository probe or creation in this script (its closing note even says the
Space must be created beforehand). -/
def deployToHf (env : Env) : Outcome × List Event :=
  if !hasToken env.token then (.exited 1, [])
  else if !pathExists (env.fs "deployment") then (.exited 1, [])
  else
    let missing :=
      missingFiles (fun f => pathExists (env.fs ("deployment/" ++ f)))
        requiredDeployFiles
    if !missing.isEmpty then (.exited 1, [])
    else
      let e := Event.upload "deployment" spaceId "space" (some "")
      if env.uploadOk then (.completed requiredDeployFiles, [e]) else (.raised, [e])

/-- Embedding of `load_model_and_metadata` in `deployment/app.py`: the module
reads `HF_TOKEN` without any check (the comment marks it optional) and calls
`hf_hub_download` twice, passing whatever token value it read — `None`
included; each download may raise. -/
def appLoad (token : Option String) (dl1Ok dl2Ok : Bool) : Outcome × List Event :=
  let d1 := Event.download modelRepoId "best_model.joblib" token
  if !dl1Ok then (.raised, [d1])
  else
    let d2 := Event.download modelRepoId "model_metadata.json" token
    if !dl2Ok then (.raised, [d1, d2])
    else (.completed [], [d1, d2])

/-! ### The reconciliation step run against a live store (for idempotency)

`model_register.py`'s probe/create fragment, executed against a remote store
whose state is `present`/`absent`; a successful `create_repo` moves the store
from absent to present.  `errInj` injects a non-"not found" probe failure for
one call. -/

/-- What `api.repo_info` answers when the remote repository state is `w`
(`true` = present), unless an auth/network/quota failure `errInj` occurs. -/
def probeWorld (w : Bool) (errInj : Bool) : ProbeResult :=
  if errInj then .remoteError else if w then .present else .notFound

/-- One run of the probe/create-if-absent fragment against remote state `w`:
returns the new remote state and the trace of remote calls.  On
`RepositoryNotFoundError` the script calls `create_repo`, which (when it
succeeds) makes the repository present; on any other probe failure the script
aborts without creating. -/
def ensureStep (w : Bool) (errInj : Bool) : Bool × List Event :=
  match probeWorld w errInj with
  | .present => (w, [Event.probe modelRepoId "model"])
  | .notFound => (true, [Event.probe modelRepoId "model", Event.create modelRepoId "model"])
  | .remoteError => (w, [Event.probe modelRepoId "model"])

/-- Two sequential runs of the reconciliation fragment against the same
repository identity, starting from remote state `w`: the combined trace. -/
def ensureTwice (w : Bool) (e1 e2 : Bool) : List Event :=
  let r1 := ensureStep w e1
  let r2 := ensureStep r1.1 e2
  r1.2 ++ r2.2

/-- Number of `create_repo` calls in a trace. -/
def countCreates (t : List Event) : Nat := (t.filter Event.isCreate).length

/-! ### The metadata-driven predictor (`deployment/app.py`) -/

/-- Lookup of a feature name in the request mapping (a Python dict, embedded
as an association list keyed by feature name). -/
def lookupVal {α : Type} (req : List (String × α)) (k : String) : Option α :=
  match req.find? (fun p => p.1 == k) with
  | some p => some p.2
  | none => none

/-- Column selection `pd.DataFrame([input_dict])[FEATURE_COLUMNS]`: the
request's values are picked out in exactly `FEATURE_COLUMNS` order; a
requested column absent from the mapping raises `KeyError` (embedded as
`Except.error` carrying the offending column name) — no default value is
substituted. -/
def selectColumns {α : Type} (req : List (String × α)) :
    List String → Except String (List α)
  | [] => .ok []
  | c :: cs =>
    match lookupVal req c with
    | none => .error c
    | some v =>
      match selectColumns req cs with
      | .error e => .error e
      | .ok vs => .ok (v :: vs)

/-- The predict path of `app.py`: reorder the request per `FEATURE_COLUMNS`,
then call `model.predict` on the reordered vector.  The second component
records whether the model's decision function was invoked. -/
def runPredict {α : Type} (model : List α → Int) (cols : List String)
    (req : List (String × α)) : Except String Int × Bool :=
  match selectColumns req cols with
  | .error e => (.error e, false)
  | .ok vs => (.ok (model vs), true)

/-- The result display of `app.py`: `if prediction == 1:` show
`CLASS_MAPPING.get('1', 'FAULTY')`, `else:` show
`CLASS_MAPPING.get('0', 'NORMAL')`.  The lookup key is the binarized branch,
never the raw label itself. -/
def displayLabel (mapping : List (String × String)) (pred : Int) : String :=
  if pred == 1 then (lookupVal mapping "1").getD "FAULTY"
  else (lookupVal mapping "0").getD "NORMAL"

/-! ### Concrete environments for witnesses and counterexamples -/

/-- A filesystem on which every probe succeeds and finds the path. -/
def allFound : String → FsStat := fun _ => .found

/-- A fully healthy environment: token set, everything on disk, repository
present, every remote call succeeds. -/
def goodEnv : Env :=
  { token := some "tok", fs := allFound, probe := .present,
    createOk := true, uploadOk := true, uploadOk2 := true }

/-- Like `goodEnv` but the existence probe raises `RepositoryNotFoundError`. -/
def envNotFound : Env := { goodEnv with probe := .notFound }

/-- Like `goodEnv` but `HF_TOKEN` is unset. -/
def envNoToken : Env := { goodEnv with token := none }

/-- Like `goodEnv` but the `data/artifacts` folder does not exist. -/
def envNoArtifacts : Env :=
  { goodEnv with fs := fun p => if p == "data/artifacts" then .missing else .found }

/-- Like `goodEnv` but `stat` on `deployment/Dockerfile` fails with an access
error (permission denied). -/
def envAccessError : Env :=
  { goodEnv with
    fs := fun p => if p == "deployment/Dockerfile" then .accessError else .found }

/-- A class mapping that covers only the labels "0" and "1", with
display names different from the code's built-in fallback strings. -/
def engineMapping : List (String × String) :=
  [("0", "Engine OK"), ("1", "Engine Faulty")]

/-- A second mapping over the same label domain with a different display
name for "0". -/
def engineMapping2 : List (String × String) :=
  [("0", "All Good"), ("1", "Engine Faulty")]

/-! ## Claims -/

/-- C1: in `model_register.py`, once the run reaches the reconciliation step
(token set, models folder found, no missing required file), a `create_repo`
call is made if and only if the existence probe raised
`RepositoryNotFoundError`; any other probe failure makes the run abort with
the raised error, with no `create_repo` and no upload. -/
theorem reconciler_create_iff_notFound (env : Env)
    (h1 : hasToken env.token = true)
    (h2 : pathExists (env.fs "models") = true)
    (h3 : missingFiles (fun f => pathExists (env.fs ("models/" ++ f)))
      requiredModelFiles = []) :
    (((modelRegister env).2.any Event.isCreate = true) ↔
      env.probe = ProbeResult.notFound)
    ∧ (env.probe = ProbeResult.remoteError →
        (modelRegister env).1 = Outcome.raised
        ∧ (modelRegister env).2.any Event.isCreate = false
        ∧ (modelRegister env).2.any Event.isUpload = false) := by
  cases hp : env.probe <;>
    cases hu : env.uploadOk <;>
      cases hc : env.createOk <;>
        simp [modelRegister, h1, h2, h3, hp, hu, hc, Event.isCreate, Event.isUpload]

/-- Witness for C1: in the concrete environment whose probe reports
"not found", the reconciliation step does call `create_repo`. -/
theorem reconciler_create_iff_notFound_witness :
    (modelRegister envNotFound).2.any Event.isCreate = true :=
  (reconciler_create_iff_notFound envNotFound (by decide) (by decide)
    (by decide)).1.mpr rfl

/-- C3: running the probe/create-if-absent fragment twice in sequence against
the same repository identity performs at most one `create_repo` call, for
every initial remote state and every injection of probe failures, given that
a successful creation moves the repository from absent to present. -/
theorem ensure_twice_at_most_one_create :
    ∀ (w e1 e2 : Bool), countCreates (ensureTwice w e1 e2) ≤ 1 := by decide

/-- C4: the completeness check reports exactly the required files that are
not found, in `required_files` order, and validation succeeds if and only if
that list is empty; every miss is accumulated rather than stopping at the
first. -/
theorem validate_reports_exact_missing (fileFound : String → Bool)
    (required : List String) (h : required ≠ []) :
    (∀ f, f ∈ missingFiles fileFound required ↔
      f ∈ required ∧ fileFound f = false)
    ∧ (missingFiles fileFound required).Sublist required
    ∧ (validate fileFound required = Except.ok () ↔
        missingFiles fileFound required = []) := by
  refine ⟨?_, List.filter_sublist _, ?_⟩
  · intro f
    simp [missingFiles, List.mem_filter]
  · cases hm : missingFiles fileFound required with
    | nil => simp [validate, hm]
    | cons a l => simp [validate, hm]

/-- Witness for C4 at the spec's own example: required `[a.csv, b.csv]` with
only `a.csv` present yields exactly `missing = [b.csv]`, an ordered sublist of
the requirements, and validation fails. -/
theorem validate_reports_exact_missing_witness :
    (["a.csv", "b.csv"] : List String) ≠ []
    ∧ missingFiles (fun f => f == "a.csv") ["a.csv", "b.csv"] = ["b.csv"]
    ∧ (missingFiles (fun f => f == "a.csv") ["a.csv", "b.csv"]).Sublist
        ["a.csv", "b.csv"]
    ∧ validate (fun f => f == "a.csv") ["a.csv", "b.csv"] ≠ Except.ok () := by
  refine ⟨by decide, by decide, ?_, ?_⟩
  · exact (validate_reports_exact_missing (fun f => f == "a.csv")
      ["a.csv", "b.csv"] (by decide)).2.1
  · intro hok
    have := (validate_reports_exact_missing (fun f => f == "a.csv")
      ["a.csv", "b.csv"] (by decide)).2.2.mp hok
    simp [missingFiles] at this

/-- Counterexample to C2: in a fully healthy environment the dataset
publisher `data_prep.py` performs uploads while its trace contains no
existence probe at all — the claimed "probe with create-if-absent before
every upload" pipeline shape does not hold for all three publishers. -/
theorem publishers_same_shape_counterexample :
    (dataPrep goodEnv).2.any Event.isUpload = true
    ∧ (dataPrep goodEnv).2.any Event.isProbe = false
    ∧ (dataPrep goodEnv).2.any Event.isCreate = false := by decide

/-- C2 as amended: every publisher uploads only after its completeness
validation succeeded (token set, no missing required file), but only the
model publisher runs the reconciliation step — its trace starts with the
existence probe — while the data and deployment publishers never probe. -/
theorem publishers_validate_before_upload (env : Env) :
    ((dataPrep env).2.any Event.isUpload = true →
        hasToken env.token = true
        ∧ missingFiles (fun f => pathExists (env.fs ("data/processed/" ++ f)))
            requiredDataFiles = []
        ∧ (dataPrep env).2.any Event.isProbe = false)
    ∧ ((deployToHf env).2.any Event.isUpload = true →
        hasToken env.token = true
        ∧ missingFiles (fun f => pathExists (env.fs ("deployment/" ++ f)))
            requiredDeployFiles = []
        ∧ (deployToHf env).2.any Event.isProbe = false)
    ∧ ((modelRegister env).2.any Event.isUpload = true →
        hasToken env.token = true
        ∧ missingFiles (fun f => pathExists (env.fs ("models/" ++ f)))
            requiredModelFiles = []
        ∧ (modelRegister env).2.head? = some (Event.probe modelRepoId "model")) := by
  refine ⟨?_, ?_, ?_⟩
  · cases h1 : hasToken env.token
    · simp [dataPrep, h1]
    · cases h2 : pathExists (env.fs "data/processed")
      · simp [dataPrep, h1, h2]
      · cases hm : missingFiles
            (fun f => pathExists (env.fs ("data/processed/" ++ f)))
            requiredDataFiles with
        | nil =>
          cases hu : env.uploadOk <;>
            cases ha : pathExists (env.fs "data/artifacts") <;>
              cases hu2 : env.uploadOk2 <;>
                simp [dataPrep, h1, h2, hm, hu, ha, hu2, Event.isProbe,
                  Event.isUpload]
        | cons a l => simp [dataPrep, h1, h2, hm]
  · cases h1 : hasToken env.token
    · simp [deployToHf, h1]
    · cases h2 : pathExists (env.fs "deployment")
      · simp [deployToHf, h1, h2]
      · cases hm : missingFiles
            (fun f => pathExists (env.fs ("deployment/" ++ f)))
            requiredDeployFiles with
        | nil =>
          cases hu : env.uploadOk <;>
            simp [deployToHf, h1, h2, hm, hu, Event.isProbe, Event.isUpload]
        | cons a l => simp [deployToHf, h1, h2, hm]
  · cases h1 : hasToken env.token
    · simp [modelRegister, h1]
    · cases h2 : pathExists (env.fs "models")
      · simp [modelRegister, h1, h2]
      · cases hm : missingFiles
            (fun f => pathExists (env.fs ("models/" ++ f)))
            requiredModelFiles with
        | nil =>
          cases hp : env.probe <;>
            cases hu : env.uploadOk <;>
              cases hc : env.createOk <;>
                simp [modelRegister, h1, h2, hm, hp, hu, hc, Event.isProbe,
                  Event.isUpload]
        | cons a l => simp [modelRegister, h1, h2, hm]

/-- Witness for C2 as amended: in the healthy environment the model
publisher's trace uploads, and hence its validation passed and its trace
begins with the probe. -/
theorem publishers_validate_before_upload_witness :
    hasToken goodEnv.token = true
    ∧ missingFiles (fun f => pathExists (goodEnv.fs ("models/" ++ f)))
        requiredModelFiles = []
    ∧ (modelRegister goodEnv).2.head? = some (Event.probe modelRepoId "model") :=
  (publishers_validate_before_upload goodEnv).2.2 (by decide)

/-- If some requested column is absent from the request mapping, column
selection fails (with the first absent column's name). -/
lemma selectColumns_error_of_missing {α : Type} (req : List (String × α)) :
    ∀ (cols : List String) (c : String), c ∈ cols → lookupVal req c = none →
      ∃ e, selectColumns req cols = Except.error e := by
  intro cols
  induction cols with
  | nil => intro c hc _; simp at hc
  | cons d ds ih =>
    intro c hc hm
    rcases List.mem_cons.mp hc with h | h
    · subst h
      exact ⟨c, by simp [selectColumns, hm]⟩
    · cases hd : lookupVal req d with
      | none => exact ⟨d, by simp [selectColumns, hd]⟩
      | some v =>
        obtain ⟨e, he⟩ := ih c h hm
        exact ⟨e, by simp [selectColumns, hd, he]⟩

lemma lookupVal_cons_pos {α : Type} (x : String × α) (t : List (String × α))
    (k : String) (h : (x.1 == k) = true) : lookupVal (x :: t) k = some x.2 := by
  simp [lookupVal, List.find?_cons, h]

lemma lookupVal_cons_neg {α : Type} (x : String × α) (t : List (String × α))
    (k : String) (h : (x.1 == k) = false) : lookupVal (x :: t) k = lookupVal t k := by
  simp [lookupVal, List.find?_cons, h]

/-- Permuting a request mapping with no duplicate keys does not change any
lookup — the embedding of the fact that a Python dict's iteration order does
not affect key access. -/
lemma lookupVal_eq_of_perm {α : Type} {l₁ l₂ : List (String × α)}
    (hp : l₁.Perm l₂) :
    (l₁.map Prod.fst).Nodup → ∀ k, lookupVal l₁ k = lookupVal l₂ k := by
  induction hp with
  | nil => intro _ k; rfl
  | cons x _ ih =>
    intro hnd k
    rw [List.map_cons, List.nodup_cons] at hnd
    have hnd' := hnd.2
    cases hx : x.1 == k with
    | true => rw [lookupVal_cons_pos _ _ _ hx, lookupVal_cons_pos _ _ _ hx]
    | false =>
      rw [lookupVal_cons_neg _ _ _ hx, lookupVal_cons_neg _ _ _ hx]
      exact ih hnd' k
  | swap x y t =>
    intro hnd k
    rw [List.map_cons, List.map_cons, List.nodup_cons] at hnd
    have hyx : y.1 ≠ x.1 := by
      intro hcontra
      exact hnd.1 (hcontra ▸ List.mem_cons_self _ _)
    cases hy : y.1 == k with
    | true =>
      cases hx : x.1 == k with
      | true =>
        exact absurd ((beq_iff_eq.mp hy).trans (beq_iff_eq.mp hx).symm) hyx
      | false =>
        rw [lookupVal_cons_pos _ _ _ hy, lookupVal_cons_neg _ _ _ hx,
          lookupVal_cons_pos _ _ _ hy]
    | false =>
      cases hx : x.1 == k with
      | true =>
        rw [lookupVal_cons_neg _ _ _ hy, lookupVal_cons_pos _ _ _ hx,
          lookupVal_cons_pos _ _ _ hx]
      | false =>
        simp only [lookupVal_cons_neg _ _ _ hx, lookupVal_cons_neg _ _ _ hy]
  | trans h₁ _ ih₁ ih₂ =>
    intro hnd k
    have hnd₂ := ((h₁.map Prod.fst).nodup_iff).mp hnd
    exact (ih₁ hnd k).trans (ih₂ hnd₂ k)

/-- Requests with identical lookups select identical column vectors. -/
lemma selectColumns_congr {α : Type} {req₁ req₂ : List (String × α)}
    (h : ∀ k, lookupVal req₁ k = lookupVal req₂ k) :
    ∀ cols, selectColumns req₁ cols = selectColumns req₂ cols := by
  intro cols
  induction cols with
  | nil => rfl
  | cons c cs ih => simp [selectColumns, h c, ih]

/-- C5: for every request missing at least one name of `feature_columns`,
the predict path fails with the schema-mismatch error (the `KeyError` of the
column selection) and the model's decision function is never invoked; no
default is substituted. -/
theorem predict_schema_mismatch {α : Type} (model : List α → Int)
    (cols : List String) (req : List (String × α)) (c : String)
    (hc : c ∈ cols) (hm : lookupVal req c = none) :
    (∃ e, (runPredict model cols req).1 = Except.error e)
    ∧ (runPredict model cols req).2 = false := by
  obtain ⟨e, he⟩ := selectColumns_error_of_missing req cols c hc hm
  exact ⟨⟨e, by simp [runPredict, he]⟩, by simp [runPredict, he]⟩

/-- Witness for C5: the empty request against the one-column schema
`[Engine_RPM]` errors without invoking the model. -/
theorem predict_schema_mismatch_witness :
    ("Engine_RPM" ∈ (["Engine_RPM"] : List String))
    ∧ lookupVal ([] : List (String × Int)) "Engine_RPM" = none
    ∧ ((∃ e, (runPredict (fun _ => (0 : Int)) ["Engine_RPM"]
          ([] : List (String × Int))).1 = Except.error e)
      ∧ (runPredict (fun _ => (0 : Int)) ["Engine_RPM"]
          ([] : List (String × Int))).2 = false) :=
  ⟨by decide, rfl,
    predict_schema_mismatch (fun _ => (0 : Int)) ["Engine_RPM"] [] "Engine_RPM"
      (by decide) rfl⟩

/-- C6: for a valid request mapping without duplicate keys, every permutation
of its entries produces the identical predict result, and whenever column
selection succeeds the returned label is exactly the model's output on the
vector reordered into `feature_columns` order. -/
theorem predict_order_insensitive {α : Type} (model : List α → Int)
    (cols : List String) (req₁ req₂ : List (String × α))
    (hperm : req₁.Perm req₂) (hnd : (req₁.map Prod.fst).Nodup) :
    runPredict model cols req₁ = runPredict model cols req₂
    ∧ ∀ vs, selectColumns req₁ cols = Except.ok vs →
        (runPredict model cols req₁).1 = Except.ok (model vs) := by
  have hl := lookupVal_eq_of_perm hperm hnd
  have hs := selectColumns_congr hl cols
  constructor
  · simp [runPredict, hs]
  · intro vs hvs
    simp [runPredict, hvs]

/-- Witness for C6: submitting the two sensor readings in the opposite order
from the schema order yields the identical predict result. -/
theorem predict_order_insensitive_witness :
    runPredict (fun vs => vs.headD 0) ["Engine_RPM", "Coolant_Temperature"]
        [("Engine_RPM", (700 : Int)), ("Coolant_Temperature", 90)]
      = runPredict (fun vs => vs.headD 0) ["Engine_RPM", "Coolant_Temperature"]
        [("Coolant_Temperature", (90 : Int)), ("Engine_RPM", 700)] :=
  (predict_order_insensitive (fun vs => vs.headD 0)
    ["Engine_RPM", "Coolant_Temperature"]
    [("Engine_RPM", (700 : Int)), ("Coolant_Temperature", 90)]
    [("Coolant_Temperature", (90 : Int)), ("Engine_RPM", 700)]
    (List.Perm.swap _ _ _) (by decide)).1

/-- Counterexample to C7: the downloading path (`deployment/app.py`) does not
treat an absent `HF_TOKEN` as fatal — with the token unset it performs both
network downloads, passing `None` as the token, and completes without any
exit. -/
theorem token_fatal_counterexample :
    (appLoad none true true).1 = Outcome.completed []
    ∧ (appLoad none true true).2 =
        [Event.download modelRepoId "best_model.joblib" none,
         Event.download modelRepoId "model_metadata.json" none] :=
  ⟨rfl, rfl⟩

/-- C7 as amended: an unset or empty `HF_TOKEN` makes each of the three
publishing scripts exit with code 1 before any remote call, while the
downloading application proceeds to its network downloads without the
token. -/
theorem token_fatal_for_publishers (env : Env)
    (h : hasToken env.token = false) :
    modelRegister env = (Outcome.exited 1, [])
    ∧ dataPrep env = (Outcome.exited 1, [])
    ∧ deployToHf env = (Outcome.exited 1, [])
    ∧ (appLoad none true true).2 ≠ [] :=
  ⟨by simp [modelRegister, h], by simp [dataPrep, h],
    by simp [deployToHf, h], by decide⟩

/-- Witness for C7 as amended: with the token unset, the model publisher
exits immediately with an empty remote-call trace. -/
theorem token_fatal_for_publishers_witness :
    modelRegister envNoToken = (Outcome.exited 1, []) :=
  (token_fatal_for_publishers envNoToken (by decide)).1

/-- Counterexample to C8: when `stat` on `deployment/Dockerfile` fails with an
access error, the completeness check of `deploy_to_hf.py` reports exactly
`Dockerfile` as missing and the script exits through the missing-files branch
— there is no distinct storage-access error. -/
theorem access_error_counterexample :
    envAccessError.fs "deployment/Dockerfile" = FsStat.accessError
    ∧ missingFiles
        (fun f => pathExists (envAccessError.fs ("deployment/" ++ f)))
        requiredDeployFiles = ["Dockerfile"]
    ∧ deployToHf envAccessError = (Outcome.exited 1, []) := by decide

/-- C8 as amended: a filesystem access error on a required file is reported
as that file being missing, because `os.path.exists` / `Path.exists` return
`False` on `OSError` exactly as for an absent path. -/
theorem access_error_reported_missing (fs : String → FsStat)
    (required : List String) (f : String) (hf : f ∈ required)
    (he : fs f = FsStat.accessError) :
    f ∈ missingFiles (fun g => pathExists (fs g)) required := by
  simp [missingFiles, List.mem_filter, hf, he, pathExists]

/-- Witness for C8 as amended: a required `Dockerfile` whose `stat` fails
with an access error lands in the missing list. -/
theorem access_error_reported_missing_witness :
    ("Dockerfile" ∈ requiredDeployFiles)
    ∧ (fun _ : String => FsStat.accessError) "Dockerfile" = FsStat.accessError
    ∧ "Dockerfile" ∈ missingFiles
        (fun g => pathExists ((fun _ : String => FsStat.accessError) g))
        requiredDeployFiles :=
  ⟨by decide, rfl,
    access_error_reported_missing (fun _ => FsStat.accessError)
      requiredDeployFiles "Dockerfile" (by decide) rfl⟩

/-- Counterexample to C9: with a class mapping covering only "0" and "1", the
raw label 2 (absent from the mapping) is displayed as the mapping's entry for
"0" — "Engine OK" — which is not a fixed default string: it is neither of the
code's fallback constants and changes when the mapping's "0" entry changes. -/
theorem display_fallback_counterexample :
    lookupVal engineMapping "2" = none
    ∧ displayLabel engineMapping 2 = "Engine OK"
    ∧ displayLabel engineMapping 2 ≠ "NORMAL"
    ∧ displayLabel engineMapping 2 ≠ "FAULTY"
    ∧ lookupVal engineMapping2 "2" = none
    ∧ displayLabel engineMapping 2 ≠ displayLabel engineMapping2 2 := by decide

/-- C9 as amended: a raw label absent from `class_mapping` raises no error,
and any label other than 1 is displayed through the mapping's "0" entry; the
fixed fallback string "NORMAL" appears only when the key "0" is itself absent
from the mapping. -/
theorem display_fallback_binarized (mapping : List (String × String))
    (pred : Int) (hun : lookupVal mapping (toString pred) = none)
    (hne : pred ≠ 1) :
    (∃ s, lookupVal mapping "0" = some s ∧ displayLabel mapping pred = s)
    ∨ (lookupVal mapping "0" = none ∧ displayLabel mapping pred = "NORMAL") := by
  have hb : (pred == 1) = false := by
    cases hbe : pred == 1 with
    | false => rfl
    | true => exact absurd (beq_iff_eq.mp hbe) hne
  cases h0 : lookupVal mapping "0" with
  | some s => exact Or.inl ⟨s, rfl, by simp [displayLabel, hb, h0]⟩
  | none => exact Or.inr ⟨rfl, by simp [displayLabel, hb, h0]⟩

/-- Witness for C9 as amended: label 2, unmapped, displays the mapping's "0"
entry. -/
theorem display_fallback_binarized_witness :
    lookupVal engineMapping (toString (2 : Int)) = none
    ∧ ((∃ s, lookupVal engineMapping "0" = some s
          ∧ displayLabel engineMapping 2 = s)
      ∨ (lookupVal engineMapping "0" = none
          ∧ displayLabel engineMapping 2 = "NORMAL")) :=
  ⟨by decide, display_fallback_binarized engineMapping 2 (by decide) (by decide)⟩

/-- C10: in `data_prep.py`, when the artifacts folder is absent (token set,
processed files all present, upload succeeding), the artifacts upload is
silently skipped — the trace holds only the processed-folder upload — yet the
run completes with the fixed report that still lists the three artifacts
files as uploaded. -/
theorem dataprep_report_unconditional (env : Env)
    (h1 : hasToken env.token = true)
    (h2 : pathExists (env.fs "data/processed") = true)
    (h3 : missingFiles (fun f => pathExists (env.fs ("data/processed/" ++ f)))
        requiredDataFiles = [])
    (h4 : pathExists (env.fs "data/artifacts") = false)
    (h5 : env.uploadOk = true) :
    (dataPrep env).1 = Outcome.completed dataPrepReport
    ∧ (dataPrep env).2 =
        [Event.upload "data/processed" dataRepoId "dataset" (some "processed")]
    ∧ "artifacts/column_schema.json" ∈ dataPrepReport
    ∧ "artifacts/outlier_metadata.json" ∈ dataPrepReport
    ∧ "artifacts/split_metadata.json" ∈ dataPrepReport := by
  refine ⟨?_, ?_, by decide, by decide, by decide⟩ <;>
    simp [dataPrep, h1, h2, h3, h4, h5]

/-- Witness for C10: the concrete environment whose only deviation is a
missing `data/artifacts` folder completes with the full report while
uploading only the processed folder. -/
theorem dataprep_report_unconditional_witness :
    (dataPrep envNoArtifacts).1 = Outcome.completed dataPrepReport
    ∧ (dataPrep envNoArtifacts).2 =
        [Event.upload "data/processed" dataRepoId "dataset" (some "processed")] := by
  have h := dataprep_report_unconditional envNoArtifacts (by decide) (by decide)
    (by decide) (by decide) rfl
  exact ⟨h.1, h.2.1⟩

end CsEpm
